import Mathlib

/-!
Verification of the `eth-dapp` repository: a Solidity `SimpleStorage`
contract (owner-gated withdraw, message store, deposit), an ethers.js
client layer (`src/utils/ethereum.js`) and a React UI controller
(`src/App.jsx`).  Each layer is shallowly embedded: contract functions
become pure state transformers (reverts become `Except.error` carrying
the Solidity `require` reason string), client wrappers become total
functions from the underlying provider outcome to the wrapped outcome,
and UI handlers become functions from the session state and an
environment (the outcomes of the chain-client calls the handler makes)
to the new session state together with a trace of the chain-client
calls performed.
-/

namespace SimpleStorage

/-- On-chain state of the `SimpleStorage` contract: the `owner` address
(set at construction, never written again), the stored `message` string
and the contract's native ETH `balance` (`address(this).balance`). -/
structure ContractState where
  owner : Nat
  message : String
  balance : Nat
deriving DecidableEq, Repr

/-- Result of the `payable(owner).transfer(balance)` call in `withdraw`:
the recipient address and the amount of wei moved out of the contract. -/
structure TransferOut where
  recipient : Nat
  amount : Nat
deriving DecidableEq, Repr

/-- Embeds `storeMessage(string calldata _message)`: unconditional
overwrite of `message`.  The function is `external` with no access
control, so the caller address is taken but never read. -/
def storeMessage (s : ContractState) (_caller : Nat) (text : String) : ContractState :=
  { s with message := text }

/-- Embeds `getMessage()`: a `view` function returning the current
`message`; as a pure function of the state it has no side effects. -/
def getMessage (s : ContractState) : String :=
  s.message

/-- Embeds `deposit()`: an `external payable` function with an empty
body.  The EVM credits the attached value to `address(this).balance`
before the (empty) body runs, so the state change is exactly a balance
increase by the attached value `v`. -/
def deposit (s : ContractState) (_caller : Nat) (v : Nat) : ContractState :=
  { s with balance := s.balance + v }

/-- Embeds `getBalance()`: a `view` function returning
`address(this).balance`. -/
def getBalance (s : ContractState) : Nat :=
  s.balance

/-- Embeds the body of `withdraw()`: `require(msg.sender == owner)`,
then `balance = address(this).balance`, `require(balance > 0)`, then
`payable(owner).transfer(balance)` which deducts `balance` from the
contract and credits it to `owner`.  A failed `require` is an
`Except.error` carrying the revert reason string. -/
def withdraw (s : ContractState) (caller : Nat) : Except String (ContractState × TransferOut) :=
  if caller = s.owner then
    let balance := s.balance
    if balance > 0 then
      .ok ({ s with balance := s.balance - balance }, ⟨s.owner, balance⟩)
    else
      .error "Sin fondos"
  else
    .error "Solo el owner puede retirar"

/-- Transaction-level view of `withdraw`: by EVM semantics a reverted
call leaves the contract state (storage and balance) exactly as it was,
so on `Except.error` the pre-state is returned unchanged. -/
def withdrawTx (s : ContractState) (caller : Nat) : ContractState × Except String TransferOut :=
  match withdraw s caller with
  | .ok (s', out) => (s', .ok out)
  | .error e => (s, .error e)

end SimpleStorage

namespace EthClient

/-- Error object thrown by the wallet provider: a numeric `code` and a
`message` string (the shape `switchToSepolia` inspects). -/
structure ProviderError where
  code : Int
  message : String
deriving DecidableEq, Repr

/-- Chain descriptor passed to `wallet_addEthereumChain`: the fields of
the literal object in `switchToSepolia`. -/
structure ChainDescriptor where
  chainId : String
  chainName : String
  currencyName : String
  currencySymbol : String
  currencyDecimals : Nat
  rpcUrl : String
  explorerUrl : String
deriving DecidableEq, Repr

/-- Provider request issued by `switchToSepolia`, recorded in order. -/
inductive ProviderReq where
  | switchChain (chainId : String)
  | addChain (descriptor : ChainDescriptor)
deriving DecidableEq, Repr

/-- The fixed Sepolia descriptor from the `wallet_addEthereumChain`
params literal in `switchToSepolia`. -/
def sepoliaDescriptor : ChainDescriptor :=
  { chainId := "0xaa36a7"
    chainName := "Sepolia Testnet"
    currencyName := "Sepolia ETH"
    currencySymbol := "ETH"
    currencyDecimals := 18
    rpcUrl := "https://sepolia.infura.io/v3/"
    explorerUrl := "https://sepolia.etherscan.io/" }

/-- Outcomes the provider returns for the two requests `switchToSepolia`
may issue (the switch request and, on error code 4902, the add
request). -/
structure SwitchEnv where
  switchOutcome : Except ProviderError Unit
  addOutcome : Except ProviderError Unit
deriving Repr

/-- Embeds `switchToSepolia()`: requests
`wallet_switchEthereumChain` for chain id `0xaa36a7`; on an error with
code 4902 it requests `wallet_addEthereumChain` with the fixed Sepolia
descriptor and returns `true` on success (it does not issue a second
switch request), wrapping an add failure with the add-specific message;
any other switch error is wrapped with the switch-specific message.
Returns the result together with the ordered list of provider requests
issued. -/
def switchToSepolia (env : SwitchEnv) : Except String Bool × List ProviderReq :=
  match env.switchOutcome with
  | .ok _ => (.ok true, [.switchChain "0xaa36a7"])
  | .error err =>
    if err.code = 4902 then
      match env.addOutcome with
      | .ok _ =>
        (.ok true, [.switchChain "0xaa36a7", .addChain sepoliaDescriptor])
      | .error addError =>
        (.error ("Failed to add Sepolia network: " ++ addError.message),
         [.switchChain "0xaa36a7", .addChain sepoliaDescriptor])
    else
      (.error ("Failed to switch to Sepolia network: " ++ err.message),
       [.switchChain "0xaa36a7"])

/-- Embeds `connectWallet()`: fails when no provider is installed,
returns the first authorized account on success, and wraps any request
error with the connect-specific message. -/
def connectWallet (installed : Bool) (raw : Except String (List String)) :
    Except String (Option String) :=
  if !installed then
    .error "MetaMask is not installed"
  else
    match raw with
    | .ok accounts => .ok accounts.head?
    | .error e => .error ("Failed to connect to wallet: " ++ e)

/-- Embeds `checkNetwork()`: compares the reported chain id with the
Sepolia chain id `0xaa36a7`; wraps a request error. -/
def checkNetwork (raw : Except String String) : Except String Bool :=
  match raw with
  | .ok chainId => .ok (chainId == "0xaa36a7")
  | .error e => .error ("Failed to check network: " ++ e)

/-- Embeds `getContractOwner()`: passes the queried owner through and
wraps any error. -/
def getContractOwner (raw : Except String String) : Except String String :=
  match raw with
  | .ok o => .ok o
  | .error e => .error ("Failed to get contract owner: " ++ e)

/-- Embeds the `storeMessage(message)` wrapper: awaits the transaction
and wraps any error. -/
def storeMessage (raw : Except String Unit) : Except String Unit :=
  match raw with
  | .ok u => .ok u
  | .error e => .error ("Failed to store message: " ++ e)

/-- Embeds the `getMessage()` wrapper: passes the queried string through
and wraps any error. -/
def getMessage (raw : Except String String) : Except String String :=
  match raw with
  | .ok m => .ok m
  | .error e => .error ("Failed to get message: " ++ e)

/-- Embeds the `deposit(amount)` wrapper: awaits the transaction and
wraps any error (including a `parseEther` failure on a malformed
amount, which surfaces as the underlying error here). -/
def deposit (raw : Except String Unit) : Except String Unit :=
  match raw with
  | .ok u => .ok u
  | .error e => .error ("Failed to deposit ETH: " ++ e)

/-- Embeds the `withdraw()` wrapper: awaits the transaction and wraps
any error. -/
def withdraw (raw : Except String Unit) : Except String Unit :=
  match raw with
  | .ok u => .ok u
  | .error e => .error ("Failed to withdraw ETH: " ++ e)

/-- Embeds the `getBalance()` wrapper: passes the queried,
ether-formatted balance string through and wraps any error. -/
def getBalance (raw : Except String String) : Except String String :=
  match raw with
  | .ok b => .ok b
  | .error e => .error ("Failed to get balance: " ++ e)

end EthClient

namespace AppUI

/-- Status record rendered by the UI, mirroring the React state
`{ type, message }` with `type` one of the empty string, `loading`,
`success` or `error`. -/
structure Status where
  type : String
  message : String
deriving DecidableEq, Repr

/-- Session state of the UI controller: the nine `useState` variables of
the `App` component. -/
structure Session where
  account : Option String
  isOwner : Bool
  isCorrectNetwork : Bool
  message : String
  storedMessage : String
  depositAmount : String
  contractBalance : String
  status : Status
  loading : Bool
deriving DecidableEq, Repr

/-- Chain-client call issued by a UI handler, recorded in order. -/
inductive ChainCall where
  | connectReq
  | networkCheck
  | switchReq
  | ownerQuery
  | balanceQuery
  | storeCall (text : String)
  | getMessageCall
  | depositCall (amount : String)
  | withdrawCall
deriving DecidableEq, Repr

/-- Environment of one handler run: the outcome each chain-client call
would return if the handler issues it.  Each handler issues each call at
most once. -/
structure ClientEnv where
  connectResult : Except String String
  networkResult : Except String Bool
  switchResult : Except String Unit
  ownerResult : Except String String
  balanceResult : Except String String
  storeResult : Except String Unit
  getMessageResult : Except String String
  depositResult : Except String Unit
  withdrawResult : Except String Unit
deriving Repr

/-- Outcome of an event handler that has no try/catch of its own:
either it runs to completion (`done`), or an exception escapes it
uncaught (`escaped`), carrying the error message, the session state as
committed up to the throwing call, and the calls issued so far. -/
inductive HandlerOutcome where
  | done (s : Session) (calls : List ChainCall)
  | escaped (err : String) (s : Session) (calls : List ChainCall)
deriving DecidableEq, Repr

/-- Models JavaScript `String.prototype.toLowerCase` character-wise. -/
def jsToLowerCase (s : String) : String :=
  ⟨s.data.map Char.toLower⟩

/-- Models JavaScript `String.prototype.trim`: strips whitespace from
both ends. -/
def jsTrim (s : String) : String :=
  ⟨((s.data.dropWhile Char.isWhitespace).reverse.dropWhile Char.isWhitespace).reverse⟩

/-- Numeric value of a digit list, most significant first. -/
def digitsVal (l : List Char) : Nat :=
  l.foldl (fun a c => a * 10 + (c.toNat - 48)) 0

/-- Models JavaScript `parseFloat` on the plain decimal strings the
number input produces: an optional sign, integer digits, an optional
fraction; trailing non-numeric characters are ignored; `none` stands
for `NaN` (no leading numeric prefix).  The parsed value is returned as
a scaled integer: `(n, k)` denotes the rational `n / 10 ^ k`, so the
value is non-positive exactly when `n ≤ 0`. -/
def jsParseFloat (s : String) : Option (Int × Nat) :=
  let cs := s.data
  let neg : Bool :=
    match cs with
    | '-' :: _ => true
    | _ => false
  let rest :=
    match cs with
    | '-' :: r => r
    | '+' :: r => r
    | r => r
  let intPart := rest.takeWhile Char.isDigit
  let rest' := rest.dropWhile Char.isDigit
  let fracPart :=
    match rest' with
    | '.' :: r => r.takeWhile Char.isDigit
    | _ => []
  if intPart.isEmpty && fracPart.isEmpty then
    none
  else
    let mag : Nat := digitsVal intPart * 10 ^ fracPart.length + digitsVal fracPart
    some (if neg then -(mag : Int) else (mag : Int), fracPart.length)

/-- Embeds `updateContractBalance`: queries the balance and stores it in
the session on success; on failure the error is only logged, so the
session is returned unchanged. -/
def updateContractBalance (s : Session) (env : ClientEnv) : Session × List ChainCall :=
  match env.balanceResult with
  | .ok b => ({ s with contractBalance := b }, [.balanceQuery])
  | .error _ => (s, [.balanceQuery])

/-- Embeds `handleConnectWallet`: sets loading and a loading status,
connects, checks the network, and on the Sepolia network resolves the
owner flag and refreshes the balance; every propagated error is caught
and rendered with the connect-specific message; loading is cleared in
the `finally` step on every path. -/
def handleConnectWallet (s : Session) (env : ClientEnv) : Session × List ChainCall :=
  let s1 := { s with loading := true, status := ⟨"loading", "Connecting to wallet..."⟩ }
  match env.connectResult with
  | .error e =>
    ({ s1 with status := ⟨"error", "Failed to connect wallet: " ++ e⟩, loading := false },
     [.connectReq])
  | .ok acct =>
    let s2 := { s1 with account := some acct }
    match env.networkResult with
    | .error e =>
      ({ s2 with status := ⟨"error", "Failed to connect wallet: " ++ e⟩, loading := false },
       [.connectReq, .networkCheck])
    | .ok onSepolia =>
      let s3 := { s2 with isCorrectNetwork := onSepolia }
      if onSepolia then
        match env.ownerResult with
        | .error e =>
          ({ s3 with status := ⟨"error", "Failed to connect wallet: " ++ e⟩, loading := false },
           [.connectReq, .networkCheck, .ownerQuery])
        | .ok owner =>
          let s4 := { s3 with isOwner := jsToLowerCase acct == jsToLowerCase owner }
          let r := updateContractBalance s4 env
          ({ r.1 with status := ⟨"success", "Wallet connected successfully!"⟩, loading := false },
           [.connectReq, .networkCheck, .ownerQuery] ++ r.2)
      else
        ({ s3 with
            status := ⟨"error", "Please switch to the Sepolia network to use this DApp."⟩,
            loading := false },
         [.connectReq, .networkCheck])

/-- Embeds `handleSwitchNetwork`: switches the network, then when an
account is connected resolves the owner flag and refreshes the balance;
errors are rendered with the switch-specific message; loading is
cleared in the `finally` step on every path. -/
def handleSwitchNetwork (s : Session) (env : ClientEnv) : Session × List ChainCall :=
  let s1 := { s with loading := true, status := ⟨"loading", "Switching to Sepolia network..."⟩ }
  match env.switchResult with
  | .error e =>
    ({ s1 with status := ⟨"error", "Failed to switch network: " ++ e⟩, loading := false },
     [.switchReq])
  | .ok _ =>
    let s2 := { s1 with isCorrectNetwork := true }
    match s.account with
    | some acct =>
      match env.ownerResult with
      | .error e =>
        ({ s2 with status := ⟨"error", "Failed to switch network: " ++ e⟩, loading := false },
         [.switchReq, .ownerQuery])
      | .ok owner =>
        let s3 := { s2 with isOwner := jsToLowerCase acct == jsToLowerCase owner }
        let r := updateContractBalance s3 env
        ({ r.1 with
            status := ⟨"success", "Switched to Sepolia network successfully!"⟩,
            loading := false },
         [.switchReq, .ownerQuery] ++ r.2)
    | none =>
      ({ s2 with
          status := ⟨"success", "Switched to Sepolia network successfully!"⟩,
          loading := false },
       [.switchReq])

/-- Embeds `handleStoreMessage`: returns early with a fixed error
status when the trimmed input is empty (before any chain-client call),
otherwise stores the message, clearing the input on success; errors are
rendered with the store-specific message; loading is cleared in the
`finally` step of the non-early paths. -/
def handleStoreMessage (s : Session) (env : ClientEnv) : Session × List ChainCall :=
  if jsTrim s.message == "" then
    ({ s with status := ⟨"error", "Please enter a message to store."⟩ }, [])
  else
    let s1 := { s with loading := true, status := ⟨"loading", "Storing message..."⟩ }
    match env.storeResult with
    | .ok _ =>
      ({ s1 with
          status := ⟨"success", "Message stored successfully!"⟩,
          message := "",
          loading := false },
       [.storeCall s.message])
    | .error e =>
      ({ s1 with status := ⟨"error", "Failed to store message: " ++ e⟩, loading := false },
       [.storeCall s.message])

/-- Embeds `handleGetMessage`: retrieves the stored message into the
session; errors are rendered with the retrieve-specific message;
loading is cleared in the `finally` step on every path. -/
def handleGetMessage (s : Session) (env : ClientEnv) : Session × List ChainCall :=
  let s1 := { s with loading := true, status := ⟨"loading", "Retrieving message..."⟩ }
  match env.getMessageResult with
  | .ok m =>
    ({ s1 with
        storedMessage := m,
        status := ⟨"success", "Message retrieved successfully!"⟩,
        loading := false },
     [.getMessageCall])
  | .error e =>
    ({ s1 with status := ⟨"error", "Failed to retrieve message: " ++ e⟩, loading := false },
     [.getMessageCall])

/-- Validation guard of `handleDeposit`:
`!depositAmount || parseFloat(depositAmount) <= 0`.  An empty string is
falsy, and `NaN <= 0` is false, so a non-numeric non-empty amount
passes the guard. -/
def depositInputInvalid (amount : String) : Bool :=
  amount == "" ||
    (match jsParseFloat amount with
     | some (n, _) => decide (n ≤ 0)
     | none => false)

/-- Embeds `handleDeposit`: returns early with a fixed error status
when the amount is empty or parses to a non-positive number (before any
chain-client call); otherwise deposits, refreshes the balance, and
clears the amount on success; errors are rendered with the
deposit-specific message; loading is cleared in the `finally` step of
the non-early paths. -/
def handleDeposit (s : Session) (env : ClientEnv) : Session × List ChainCall :=
  if depositInputInvalid s.depositAmount then
    ({ s with status := ⟨"error", "Please enter a valid amount to deposit."⟩ }, [])
  else
    let s1 := { s with loading := true, status := ⟨"loading", "Depositing ETH..."⟩ }
    match env.depositResult with
    | .ok _ =>
      let r := updateContractBalance s1 env
      ({ r.1 with
          status := ⟨"success", "ETH deposited successfully!"⟩,
          depositAmount := "",
          loading := false },
       [.depositCall s.depositAmount] ++ r.2)
    | .error e =>
      ({ s1 with status := ⟨"error", "Failed to deposit ETH: " ++ e⟩, loading := false },
       [.depositCall s.depositAmount])

/-- Embeds `handleWithdraw`: withdraws and refreshes the balance on
success; errors are rendered with the withdraw-specific message;
loading is cleared in the `finally` step on every path. -/
def handleWithdraw (s : Session) (env : ClientEnv) : Session × List ChainCall :=
  let s1 := { s with loading := true, status := ⟨"loading", "Withdrawing ETH..."⟩ }
  match env.withdrawResult with
  | .ok _ =>
    let r := updateContractBalance s1 env
    ({ r.1 with status := ⟨"success", "ETH withdrawn successfully!"⟩, loading := false },
     [.withdrawCall] ++ r.2)
  | .error e =>
    ({ s1 with status := ⟨"error", "Failed to withdraw ETH: " ++ e⟩, loading := false },
     [.withdrawCall])

/-- Embeds `handleAccountChange`: stores the new account; when it is
non-null and the network flag is set, resolves the owner flag against
the freshly queried contract owner, refreshes the balance and clears
the status; otherwise clears the owner flag.  The handler has no
try/catch, so an owner-query failure escapes it uncaught. -/
def handleAccountChange (s : Session) (newAccount : Option String) (env : ClientEnv) :
    HandlerOutcome :=
  let s1 := { s with account := newAccount }
  match newAccount with
  | some acct =>
    if s.isCorrectNetwork then
      match env.ownerResult with
      | .error e => .escaped e s1 [.ownerQuery]
      | .ok owner =>
        let s2 := { s1 with isOwner := jsToLowerCase acct == jsToLowerCase owner }
        let r := updateContractBalance s2 env
        .done { r.1 with status := ⟨"", ""⟩ } (.ownerQuery :: r.2)
    else
      .done { s1 with isOwner := false } []
  | none => .done { s1 with isOwner := false } []

/-- Embeds `handleNetworkChange`: stores the new network flag; when it
is set and an account is connected, resolves the owner flag against the
freshly queried contract owner, refreshes the balance and clears the
status; otherwise clears the owner flag.  The handler has no try/catch,
so an owner-query failure escapes it uncaught. -/
def handleNetworkChange (s : Session) (isSepolia : Bool) (env : ClientEnv) :
    HandlerOutcome :=
  let s1 := { s with isCorrectNetwork := isSepolia }
  if isSepolia then
    match s.account with
    | some acct =>
      match env.ownerResult with
      | .error e => .escaped e s1 [.ownerQuery]
      | .ok owner =>
        let s2 := { s1 with isOwner := jsToLowerCase acct == jsToLowerCase owner }
        let r := updateContractBalance s2 env
        .done { r.1 with status := ⟨"", ""⟩ } (.ownerQuery :: r.2)
    | none => .done { s1 with isOwner := false } []
  else
    .done { s1 with isOwner := false } []

/-- Projection used to state completion facts about an event handler:
the `isOwner` flag of the resulting session when the handler ran to
completion, `none` when an exception escaped it. -/
def doneIsOwner : HandlerOutcome → Option Bool
  | .done s _ => some s.isOwner
  | .escaped _ _ _ => none

/-- Concrete session for witnesses: connected non-owner checks run
against it; the cached owner flag is (stale) `true`. -/
def sampleSession : Session :=
  { account := some "0xAbc"
    isOwner := true
    isCorrectNetwork := true
    message := "hi"
    storedMessage := ""
    depositAmount := "1.5"
    contractBalance := "5.0"
    status := ⟨"", ""⟩
    loading := false }

/-- Concrete session for witnesses of the input-validation paths: a
whitespace-only message buffer and a negative deposit amount. -/
def blankSession : Session :=
  { account := some "0xAbc"
    isOwner := false
    isCorrectNetwork := true
    message := "   "
    storedMessage := ""
    depositAmount := "-1"
    contractBalance := "0"
    status := ⟨"", ""⟩
    loading := false }

/-- Concrete environment for witnesses: every chain-client call
succeeds; the queried owner differs from every sample account. -/
def sampleEnv : ClientEnv :=
  { connectResult := .ok "0xAbc"
    networkResult := .ok true
    switchResult := .ok ()
    ownerResult := .ok "0xOther"
    balanceResult := .ok "9.0"
    storeResult := .ok ()
    getMessageResult := .ok "stored"
    depositResult := .ok ()
    withdrawResult := .ok ()
  }

/-- Concrete environment for witnesses of the failure paths: every
chain-client call fails.  The owner query fails with the message the
client wrapper would produce. -/
def errEnv : ClientEnv :=
  { connectResult := .error "user rejected"
    networkResult := .error "rpc down"
    switchResult := .error "rpc down"
    ownerResult := .error "Failed to get contract owner: rpc down"
    balanceResult := .error "Failed to get balance: rpc down"
    storeResult := .error "tx failed"
    getMessageResult := .error "rpc down"
    depositResult := .error "tx failed"
    withdrawResult := .error "tx failed"
  }

end AppUI

/-- C1: for every contract state and caller, `withdraw` reverts with the
owner-check reason when the caller differs from `owner`, reverts with
the empty-balance reason when the balance is 0, and otherwise succeeds,
transferring the entire balance to `owner` and leaving the contract
balance at exactly 0; on both revert paths the state (owner, message,
balance) is returned unchanged. -/
theorem SimpleStorage.withdraw_correct (s : ContractState) (caller : Nat) :
    (caller ≠ s.owner →
      withdrawTx s caller = (s, .error "Solo el owner puede retirar")) ∧
    (caller = s.owner → s.balance = 0 →
      withdrawTx s caller = (s, .error "Sin fondos")) ∧
    (caller = s.owner → 0 < s.balance →
      withdrawTx s caller = ({ s with balance := 0 }, .ok ⟨s.owner, s.balance⟩)) := by
  refine ⟨?_, ?_, ?_⟩
  · intro hne
    simp [withdrawTx, withdraw, hne]
  · intro heq hbal
    simp [withdrawTx, withdraw, heq, hbal]
  · intro heq hbal
    simp [withdrawTx, withdraw, heq, hbal, Nat.sub_self]

/-- Witness for C1: a concrete run of each of the three branches of
`withdraw_correct`. -/
theorem SimpleStorage.withdraw_correct_witness :
    SimpleStorage.withdrawTx ⟨5, "hola", 7⟩ 9 =
      (⟨5, "hola", 7⟩, .error "Solo el owner puede retirar") ∧
    SimpleStorage.withdrawTx ⟨5, "hola", 0⟩ 5 =
      (⟨5, "hola", 0⟩, .error "Sin fondos") ∧
    SimpleStorage.withdrawTx ⟨5, "hola", 7⟩ 5 =
      (⟨5, "hola", 0⟩, .ok ⟨5, 7⟩) :=
  ⟨(SimpleStorage.withdraw_correct ⟨5, "hola", 7⟩ 9).1 (by decide),
   (SimpleStorage.withdraw_correct ⟨5, "hola", 0⟩ 5).2.1 rfl rfl,
   (SimpleStorage.withdraw_correct ⟨5, "hola", 7⟩ 5).2.2 rfl (by decide)⟩

/-- C2: for every state, caller and text, `storeMessage` succeeds (it is
a total function with no access control and no validation), a
`getMessage` with no intervening store returns exactly the text, owner
and balance are untouched, and a second store overwrites the first
(last write wins).  `getMessage` is a pure function of the state, hence
has no side effects. -/
theorem SimpleStorage.storeMessage_roundtrip (s : ContractState)
    (c c' : Nat) (t t' : String) :
    getMessage (storeMessage s c t) = t ∧
    (storeMessage s c t).owner = s.owner ∧
    (storeMessage s c t).balance = s.balance ∧
    storeMessage (storeMessage s c t) c' t' = storeMessage s c' t' := by
  refine ⟨rfl, rfl, rfl, rfl⟩

/-- C3: for every state, caller and attached value `v`, `deposit`
succeeds and the balance reported by `getBalance` afterwards is the
pre-deposit balance plus exactly `v` (no cap); owner and message are
unchanged. -/
theorem SimpleStorage.deposit_correct (s : ContractState) (c v : Nat) :
    getBalance (deposit s c v) = getBalance s + v ∧
    (deposit s c v).owner = s.owner ∧
    (deposit s c v).message = s.message := by
  refine ⟨rfl, rfl, rfl⟩

/-- Counterexample for C5: with the switch request failing with code
4902 and the add request succeeding, `switchToSepolia` succeeds after
issuing exactly one switch request and one add request — it never
retries the switch after registering the chain, contrary to the
claim. -/
theorem EthClient.switchToSepolia_no_retry_cex :
    (EthClient.switchToSepolia
        ⟨.error ⟨4902, "Unrecognized chain ID"⟩, .ok ()⟩).1 = .ok true ∧
    (EthClient.switchToSepolia
        ⟨.error ⟨4902, "Unrecognized chain ID"⟩, .ok ()⟩).2 =
      [.switchChain "0xaa36a7", .addChain EthClient.sepoliaDescriptor] ∧
    ((EthClient.switchToSepolia
        ⟨.error ⟨4902, "Unrecognized chain ID"⟩, .ok ()⟩).2.count
      (.switchChain "0xaa36a7")) = 1 := by
  refine ⟨rfl, rfl, by decide⟩

/-- C5 (amended): `switchToSepolia` requests the provider switch to
chain id `0xaa36a7`; when the switch fails with the chain-unknown code
4902 it registers the chain with the fixed Sepolia descriptor and, on a
successful add, returns success without re-issuing the switch request;
it throws the add-specific wrapped error when both the switch and the
add fail, and the switch-specific wrapped error for any other failure
code. -/
theorem EthClient.switchToSepolia_spec (env : EthClient.SwitchEnv) :
    (env.switchOutcome = .ok () →
      EthClient.switchToSepolia env = (.ok true, [.switchChain "0xaa36a7"])) ∧
    (∀ err, env.switchOutcome = .error err → err.code = 4902 →
      env.addOutcome = .ok () →
      EthClient.switchToSepolia env =
        (.ok true, [.switchChain "0xaa36a7", .addChain EthClient.sepoliaDescriptor])) ∧
    (∀ err addError, env.switchOutcome = .error err → err.code = 4902 →
      env.addOutcome = .error addError →
      EthClient.switchToSepolia env =
        (.error ("Failed to add Sepolia network: " ++ addError.message),
         [.switchChain "0xaa36a7", .addChain EthClient.sepoliaDescriptor])) ∧
    (∀ err, env.switchOutcome = .error err → err.code ≠ 4902 →
      EthClient.switchToSepolia env =
        (.error ("Failed to switch to Sepolia network: " ++ err.message),
         [.switchChain "0xaa36a7"])) := by
  refine ⟨?_, ?_, ?_, ?_⟩
  · intro h
    simp [EthClient.switchToSepolia, h]
  · intro err h hc ha
    simp [EthClient.switchToSepolia, h, hc, ha]
  · intro err addError h hc ha
    simp [EthClient.switchToSepolia, h, hc, ha]
  · intro err h hc
    simp [EthClient.switchToSepolia, h, hc]

/-- Witness for C5: the amended theorem applied on a concrete
environment where the switch fails with a non-4902 code. -/
theorem EthClient.switchToSepolia_spec_witness :
    EthClient.switchToSepolia ⟨.error ⟨4001, "User rejected"⟩, .ok ()⟩ =
      (.error ("Failed to switch to Sepolia network: " ++ "User rejected"),
       [.switchChain "0xaa36a7"]) :=
  (EthClient.switchToSepolia_spec ⟨.error ⟨4001, "User rejected"⟩, .ok ()⟩).2.2.2
    ⟨4001, "User rejected"⟩ rfl (by decide)

/-- C7: for every account-change event delivering a new non-null
address that (case-insensitively) differs from the successfully queried
contract owner, the handler completes and sets `isOwner` to `false`
whatever its previous value; when the new account is null, or the
network flag is false, `isOwner` is likewise set to `false` (with no
chain-client call at all). -/
theorem AppUI.accountChange_isOwner (s : AppUI.Session) (a owner : String)
    (env : AppUI.ClientEnv) :
    (s.isCorrectNetwork = true → env.ownerResult = .ok owner →
      AppUI.jsToLowerCase a ≠ AppUI.jsToLowerCase owner →
      AppUI.doneIsOwner (AppUI.handleAccountChange s (some a) env) = some false) ∧
    (s.isCorrectNetwork = false →
      AppUI.handleAccountChange s (some a) env =
        .done { s with account := some a, isOwner := false } []) ∧
    (AppUI.handleAccountChange s none env =
      .done { s with account := none, isOwner := false } []) := by
  refine ⟨?_, ?_, ?_⟩
  · intro hnet hown hdiff
    cases hbal : env.balanceResult with
    | ok b =>
      simp [AppUI.handleAccountChange, AppUI.updateContractBalance, AppUI.doneIsOwner,
        hnet, hown, hbal, hdiff]
    | error e =>
      simp [AppUI.handleAccountChange, AppUI.updateContractBalance, AppUI.doneIsOwner,
        hnet, hown, hbal, hdiff]
  · intro hnet
    simp [AppUI.handleAccountChange, hnet]
  · simp [AppUI.handleAccountChange]

/-- Witness for C7: switching to the concrete non-owner account
`0xNew` while the stale owner flag is `true` yields a completed handler
run with `isOwner = false`. -/
theorem AppUI.accountChange_isOwner_witness :
    AppUI.doneIsOwner
      (AppUI.handleAccountChange AppUI.sampleSession (some "0xNew") AppUI.sampleEnv) =
      some false :=
  (AppUI.accountChange_isOwner AppUI.sampleSession "0xNew" "0xOther" AppUI.sampleEnv).1
    rfl rfl (by decide)

/-- C8: every UI action handler that sets the busy flag at its start
clears it in its final step on every path, success or failure: the four
unconditional handlers always end with `loading = false`, and the two
validated handlers end with `loading = false` whenever the validation
passed (their early-return paths never touch the flag, leaving it as it
was). -/
theorem AppUI.loading_cleared (s : AppUI.Session) (env : AppUI.ClientEnv) :
    (AppUI.handleConnectWallet s env).1.loading = false ∧
    (AppUI.handleSwitchNetwork s env).1.loading = false ∧
    (AppUI.handleGetMessage s env).1.loading = false ∧
    (AppUI.handleWithdraw s env).1.loading = false ∧
    ((AppUI.jsTrim s.message == "") = false →
      (AppUI.handleStoreMessage s env).1.loading = false) ∧
    ((AppUI.jsTrim s.message == "") = true →
      (AppUI.handleStoreMessage s env).1.loading = s.loading) ∧
    (AppUI.depositInputInvalid s.depositAmount = false →
      (AppUI.handleDeposit s env).1.loading = false) ∧
    (AppUI.depositInputInvalid s.depositAmount = true →
      (AppUI.handleDeposit s env).1.loading = s.loading) := by
  refine ⟨?_, ?_, ?_, ?_, ?_, ?_, ?_, ?_⟩
  · cases hc : env.connectResult with
    | error e => simp [AppUI.handleConnectWallet, hc]
    | ok acct =>
      cases hn : env.networkResult with
      | error e => simp [AppUI.handleConnectWallet, hc, hn]
      | ok onSepolia =>
        cases onSepolia with
        | false => simp [AppUI.handleConnectWallet, hc, hn]
        | true =>
          cases ho : env.ownerResult with
          | error e => simp [AppUI.handleConnectWallet, hc, hn, ho]
          | ok owner =>
            cases hb : env.balanceResult with
            | ok b => simp [AppUI.handleConnectWallet, AppUI.updateContractBalance, hc, hn, ho, hb]
            | error e => simp [AppUI.handleConnectWallet, AppUI.updateContractBalance, hc, hn, ho, hb]
  · cases hs : env.switchResult with
    | error e => simp [AppUI.handleSwitchNetwork, hs]
    | ok u =>
      cases ha : s.account with
      | none => simp [AppUI.handleSwitchNetwork, hs, ha]
      | some acct =>
        cases ho : env.ownerResult with
        | error e => simp [AppUI.handleSwitchNetwork, hs, ha, ho]
        | ok owner =>
          cases hb : env.balanceResult with
          | ok b => simp [AppUI.handleSwitchNetwork, AppUI.updateContractBalance, hs, ha, ho, hb]
          | error e => simp [AppUI.handleSwitchNetwork, AppUI.updateContractBalance, hs, ha, ho, hb]
  · cases hg : env.getMessageResult with
    | ok m => simp [AppUI.handleGetMessage, hg]
    | error e => simp [AppUI.handleGetMessage, hg]
  · cases hw : env.withdrawResult with
    | ok u =>
      cases hb : env.balanceResult with
      | ok b => simp [AppUI.handleWithdraw, AppUI.updateContractBalance, hw, hb]
      | error e => simp [AppUI.handleWithdraw, AppUI.updateContractBalance, hw, hb]
    | error e => simp [AppUI.handleWithdraw, hw]
  · intro hm
    cases hst : env.storeResult with
    | ok u => simp [AppUI.handleStoreMessage, hm, hst]
    | error e => simp [AppUI.handleStoreMessage, hm, hst]
  · intro hm
    simp [AppUI.handleStoreMessage, hm]
  · intro hv
    cases hd : env.depositResult with
    | ok u =>
      cases hb : env.balanceResult with
      | ok b => simp [AppUI.handleDeposit, AppUI.updateContractBalance, hv, hd, hb]
      | error e => simp [AppUI.handleDeposit, AppUI.updateContractBalance, hv, hd, hb]
    | error e => simp [AppUI.handleDeposit, hv, hd]
  · intro hv
    simp [AppUI.handleDeposit, hv]

/-- Witness for C8: a concrete store-message run with a non-blank
input ends with the busy flag cleared. -/
theorem AppUI.loading_cleared_witness :
    (AppUI.handleStoreMessage AppUI.sampleSession AppUI.sampleEnv).1.loading = false :=
  (AppUI.loading_cleared AppUI.sampleSession AppUI.sampleEnv).2.2.2.2.1 (by decide)

/-- C9: with an empty or whitespace-only message buffer the
store-message action, and with an empty or non-positive amount the
deposit action, return early before any chain-client call: the status
is set to the fixed validation message and every other session field,
the busy flag included, is unchanged. -/
theorem AppUI.validation_early_return (s : AppUI.Session) (env : AppUI.ClientEnv) :
    ((AppUI.jsTrim s.message == "") = true →
      AppUI.handleStoreMessage s env =
        ({ s with status := ⟨"error", "Please enter a message to store."⟩ }, [])) ∧
    (s.depositAmount = "" →
      AppUI.handleDeposit s env =
        ({ s with status := ⟨"error", "Please enter a valid amount to deposit."⟩ }, [])) ∧
    (∀ n k, AppUI.jsParseFloat s.depositAmount = some (n, k) → n ≤ 0 →
      AppUI.handleDeposit s env =
        ({ s with status := ⟨"error", "Please enter a valid amount to deposit."⟩ }, [])) := by
  refine ⟨?_, ?_, ?_⟩
  · intro hm
    simp [AppUI.handleStoreMessage, hm]
  · intro ha
    simp [AppUI.handleDeposit, AppUI.depositInputInvalid, ha]
  · intro n k hq hle
    have hv : AppUI.depositInputInvalid s.depositAmount = true := by
      simp [AppUI.depositInputInvalid, hq, hle]
    simp [AppUI.handleDeposit, hv]

/-- Witness for C9: the deposit action on the concrete amount `-1`
returns early with the fixed validation status and no chain-client
call. -/
theorem AppUI.validation_early_return_witness :
    AppUI.handleDeposit AppUI.blankSession AppUI.sampleEnv =
      ({ AppUI.blankSession with
          status := ⟨"error", "Please enter a valid amount to deposit."⟩ }, []) :=
  (AppUI.validation_early_return AppUI.blankSession AppUI.sampleEnv).2.2 (-1) 0
    (by decide) (by decide)

/-- C10: when the balance query inside the balance-refresh helper
fails, the error is swallowed: the session is returned exactly as it
was (the cached balance keeps its previous value and the status record
is untouched), after the single balance query. -/
theorem AppUI.balance_refresh_swallows (s : AppUI.Session) (env : AppUI.ClientEnv)
    (e : String) (h : env.balanceResult = .error e) :
    AppUI.updateContractBalance s env = (s, [.balanceQuery]) := by
  simp [AppUI.updateContractBalance, h]

/-- Witness for C10: a concrete failing balance query leaves the
sample session unchanged. -/
theorem AppUI.balance_refresh_swallows_witness :
    AppUI.updateContractBalance AppUI.sampleSession AppUI.errEnv =
      (AppUI.sampleSession, [.balanceQuery]) :=
  AppUI.balance_refresh_swallows AppUI.sampleSession AppUI.errEnv
    "Failed to get balance: rpc down" rfl

/-- Counterexample for C4: a successful store-message action issues
only the store call — no ownership re-check and no balance refresh —
and leaves the session's stale `isOwner = true` and cached balance
`5.0` untouched, although the environment would have answered the owner
query with a different address and the balance query with `9.0`. -/
theorem AppUI.storeMessage_no_refresh_cex :
    (AppUI.handleStoreMessage AppUI.sampleSession AppUI.sampleEnv).2 =
      [AppUI.ChainCall.storeCall "hi"] ∧
    (AppUI.handleStoreMessage AppUI.sampleSession AppUI.sampleEnv).1.isOwner = true ∧
    (AppUI.handleStoreMessage AppUI.sampleSession AppUI.sampleEnv).1.contractBalance = "5.0" ∧
    AppUI.sampleEnv.ownerResult = .ok "0xOther" ∧
    AppUI.sampleEnv.balanceResult = .ok "9.0" := by
  refine ⟨by decide, by decide, by decide, rfl, rfl⟩

/-- C4 (amended): the store-message action issues neither the ownership
check nor the balance refresh; the deposit and withdraw actions never
re-run the ownership check but do refresh the cached balance when the
transaction succeeds; the account-change and network-change handlers
re-run both whenever the (new) account is non-null and the (new)
network flag is true, so `isOwner` and `contractBalance` then reflect
the freshly queried chain state. -/
theorem AppUI.refresh_spec (s : AppUI.Session) (env : AppUI.ClientEnv) :
    (AppUI.ChainCall.ownerQuery ∉ (AppUI.handleStoreMessage s env).2 ∧
      AppUI.ChainCall.balanceQuery ∉ (AppUI.handleStoreMessage s env).2) ∧
    AppUI.ChainCall.ownerQuery ∉ (AppUI.handleDeposit s env).2 ∧
    (AppUI.depositInputInvalid s.depositAmount = false → env.depositResult = .ok () →
      AppUI.ChainCall.balanceQuery ∈ (AppUI.handleDeposit s env).2) ∧
    AppUI.ChainCall.ownerQuery ∉ (AppUI.handleWithdraw s env).2 ∧
    (env.withdrawResult = .ok () →
      AppUI.ChainCall.balanceQuery ∈ (AppUI.handleWithdraw s env).2) ∧
    (∀ a owner b, s.isCorrectNetwork = true → env.ownerResult = .ok owner →
      env.balanceResult = .ok b →
      AppUI.handleAccountChange s (some a) env =
        .done
          { s with
              account := some a
              isOwner := AppUI.jsToLowerCase a == AppUI.jsToLowerCase owner
              contractBalance := b
              status := ⟨"", ""⟩ }
          [.ownerQuery, .balanceQuery]) ∧
    (∀ a owner b, s.account = some a → env.ownerResult = .ok owner →
      env.balanceResult = .ok b →
      AppUI.handleNetworkChange s true env =
        .done
          { s with
              isCorrectNetwork := true
              isOwner := AppUI.jsToLowerCase a == AppUI.jsToLowerCase owner
              contractBalance := b
              status := ⟨"", ""⟩ }
          [.ownerQuery, .balanceQuery]) := by
  refine ⟨⟨?_, ?_⟩, ?_, ?_, ?_, ?_, ?_, ?_⟩
  · cases hm : (AppUI.jsTrim s.message == "") with
    | true => simp [AppUI.handleStoreMessage, hm]
    | false =>
      cases hst : env.storeResult with
      | ok u => simp [AppUI.handleStoreMessage, hm, hst]
      | error e => simp [AppUI.handleStoreMessage, hm, hst]
  · cases hm : (AppUI.jsTrim s.message == "") with
    | true => simp [AppUI.handleStoreMessage, hm]
    | false =>
      cases hst : env.storeResult with
      | ok u => simp [AppUI.handleStoreMessage, hm, hst]
      | error e => simp [AppUI.handleStoreMessage, hm, hst]
  · cases hv : AppUI.depositInputInvalid s.depositAmount with
    | true => simp [AppUI.handleDeposit, hv]
    | false =>
      cases hd : env.depositResult with
      | error e => simp [AppUI.handleDeposit, hv, hd]
      | ok u =>
        cases hb : env.balanceResult with
        | ok b => simp [AppUI.handleDeposit, AppUI.updateContractBalance, hv, hd, hb]
        | error e => simp [AppUI.handleDeposit, AppUI.updateContractBalance, hv, hd, hb]
  · intro hv hd
    cases hb : env.balanceResult with
    | ok b => simp [AppUI.handleDeposit, AppUI.updateContractBalance, hv, hd, hb]
    | error e => simp [AppUI.handleDeposit, AppUI.updateContractBalance, hv, hd, hb]
  · cases hw : env.withdrawResult with
    | error e => simp [AppUI.handleWithdraw, hw]
    | ok u =>
      cases hb : env.balanceResult with
      | ok b => simp [AppUI.handleWithdraw, AppUI.updateContractBalance, hw, hb]
      | error e => simp [AppUI.handleWithdraw, AppUI.updateContractBalance, hw, hb]
  · intro hw
    cases hb : env.balanceResult with
    | ok b => simp [AppUI.handleWithdraw, AppUI.updateContractBalance, hw, hb]
    | error e => simp [AppUI.handleWithdraw, AppUI.updateContractBalance, hw, hb]
  · intro a owner b hnet hown hbal
    simp [AppUI.handleAccountChange, AppUI.updateContractBalance, hnet, hown, hbal]
  · intro a owner b hacct hown hbal
    simp [AppUI.handleNetworkChange, AppUI.updateContractBalance, hacct, hown, hbal]

/-- Witness for C4 (amended): a concrete account-change run re-runs the
ownership check and the balance refresh, updating both session
fields. -/
theorem AppUI.refresh_spec_witness :
    AppUI.handleAccountChange AppUI.sampleSession (some "0xNew") AppUI.sampleEnv =
      .done
        { AppUI.sampleSession with
            account := some "0xNew"
            isOwner := AppUI.jsToLowerCase "0xNew" == AppUI.jsToLowerCase "0xOther"
            contractBalance := "9.0"
            status := ⟨"", ""⟩ }
        [.ownerQuery, .balanceQuery] :=
  (AppUI.refresh_spec AppUI.sampleSession AppUI.sampleEnv).2.2.2.2.2.1
    "0xNew" "0xOther" "9.0" rfl rfl rfl

/-- Helper: a string starting with a non-empty literal is non-empty. -/
theorem length_append_pos (p e : String) (h : 0 < p.length) : 0 < (p ++ e).length := by
  rw [String.length_append]
  exact Nat.lt_of_lt_of_le h (Nat.le_add_right _ _)

/-- Counterexample for C6: a failing owner query inside the
account-change handler escapes the UI controller uncaught (the handler
has no try/catch), and the escape point leaves the status record
untouched, so the propagated error is never rendered as status text. -/
theorem AppUI.accountChange_uncaught_cex :
    AppUI.handleAccountChange AppUI.sampleSession (some "0xNew") AppUI.errEnv =
      .escaped "Failed to get contract owner: rpc down"
        { AppUI.sampleSession with account := some "0xNew" } [.ownerQuery] ∧
    ({ AppUI.sampleSession with account := some "0xNew" } : AppUI.Session).status =
      AppUI.sampleSession.status := by
  refine ⟨by decide, rfl⟩

/-- C6 (amended): each chain-client wrapper surfaces a failure as a
non-empty message prefixed with the failing operation's name, except
the provider-absence check, whose fixed non-empty message carries no
operation prefix; the six UI action handlers catch every propagated
error — including the network-check and owner-query failures inside
the connect and switch actions — and render it as status text prefixed
with the failing action's name; but the balance-refresh helper
swallows its error without rendering it, and the account-change and
network-change handlers catch nothing, so an owner-query error thrown
there escapes uncaught. -/
theorem AppUI.error_surfacing (s : AppUI.Session) (env : AppUI.ClientEnv) (e : String) :
    (EthClient.getContractOwner (.error e) =
        .error ("Failed to get contract owner: " ++ e) ∧
      0 < ("Failed to get contract owner: " ++ e).length) ∧
    (EthClient.storeMessage (.error e) = .error ("Failed to store message: " ++ e) ∧
      0 < ("Failed to store message: " ++ e).length) ∧
    (EthClient.getMessage (.error e) = .error ("Failed to get message: " ++ e) ∧
      0 < ("Failed to get message: " ++ e).length) ∧
    (EthClient.deposit (.error e) = .error ("Failed to deposit ETH: " ++ e) ∧
      0 < ("Failed to deposit ETH: " ++ e).length) ∧
    (EthClient.withdraw (.error e) = .error ("Failed to withdraw ETH: " ++ e) ∧
      0 < ("Failed to withdraw ETH: " ++ e).length) ∧
    (EthClient.getBalance (.error e) = .error ("Failed to get balance: " ++ e) ∧
      0 < ("Failed to get balance: " ++ e).length) ∧
    (EthClient.checkNetwork (.error e) = .error ("Failed to check network: " ++ e) ∧
      0 < ("Failed to check network: " ++ e).length) ∧
    (EthClient.connectWallet true (.error e) =
        .error ("Failed to connect to wallet: " ++ e) ∧
      0 < ("Failed to connect to wallet: " ++ e).length) ∧
    ((∀ raw, EthClient.connectWallet false raw = .error "MetaMask is not installed") ∧
      0 < ("MetaMask is not installed" : String).length) ∧
    (env.connectResult = .error e →
      (AppUI.handleConnectWallet s env).1.status =
        ⟨"error", "Failed to connect wallet: " ++ e⟩) ∧
    (∀ a, env.connectResult = .ok a → env.networkResult = .error e →
      (AppUI.handleConnectWallet s env).1.status =
        ⟨"error", "Failed to connect wallet: " ++ e⟩) ∧
    (∀ a, env.connectResult = .ok a → env.networkResult = .ok true →
      env.ownerResult = .error e →
      (AppUI.handleConnectWallet s env).1.status =
        ⟨"error", "Failed to connect wallet: " ++ e⟩) ∧
    (env.switchResult = .error e →
      (AppUI.handleSwitchNetwork s env).1.status =
        ⟨"error", "Failed to switch network: " ++ e⟩) ∧
    (∀ a, env.switchResult = .ok () → s.account = some a →
      env.ownerResult = .error e →
      (AppUI.handleSwitchNetwork s env).1.status =
        ⟨"error", "Failed to switch network: " ++ e⟩) ∧
    ((AppUI.jsTrim s.message == "") = false → env.storeResult = .error e →
      (AppUI.handleStoreMessage s env).1.status =
        ⟨"error", "Failed to store message: " ++ e⟩) ∧
    (env.getMessageResult = .error e →
      (AppUI.handleGetMessage s env).1.status =
        ⟨"error", "Failed to retrieve message: " ++ e⟩) ∧
    (AppUI.depositInputInvalid s.depositAmount = false → env.depositResult = .error e →
      (AppUI.handleDeposit s env).1.status =
        ⟨"error", "Failed to deposit ETH: " ++ e⟩) ∧
    (env.withdrawResult = .error e →
      (AppUI.handleWithdraw s env).1.status =
        ⟨"error", "Failed to withdraw ETH: " ++ e⟩) ∧
    (env.balanceResult = .error e →
      AppUI.updateContractBalance s env = (s, [.balanceQuery])) ∧
    (∀ a, s.isCorrectNetwork = true → env.ownerResult = .error e →
      AppUI.handleAccountChange s (some a) env =
        .escaped e { s with account := some a } [.ownerQuery]) ∧
    (∀ a, s.account = some a → env.ownerResult = .error e →
      AppUI.handleNetworkChange s true env =
        .escaped e { s with isCorrectNetwork := true } [.ownerQuery]) := by
  refine ⟨⟨rfl, length_append_pos _ e (by decide)⟩,
    ⟨rfl, length_append_pos _ e (by decide)⟩,
    ⟨rfl, length_append_pos _ e (by decide)⟩,
    ⟨rfl, length_append_pos _ e (by decide)⟩,
    ⟨rfl, length_append_pos _ e (by decide)⟩,
    ⟨rfl, length_append_pos _ e (by decide)⟩,
    ⟨rfl, length_append_pos _ e (by decide)⟩,
    ⟨rfl, length_append_pos _ e (by decide)⟩,
    ⟨fun raw => rfl, by decide⟩,
    ?_, ?_, ?_, ?_, ?_, ?_, ?_, ?_, ?_, ?_, ?_, ?_⟩
  · intro h
    simp [AppUI.handleConnectWallet, h]
  · intro a hc hn
    simp [AppUI.handleConnectWallet, hc, hn]
  · intro a hc hn ho
    simp [AppUI.handleConnectWallet, hc, hn, ho]
  · intro h
    simp [AppUI.handleSwitchNetwork, h]
  · intro a hsw hacct ho
    simp [AppUI.handleSwitchNetwork, hsw, hacct, ho]
  · intro hm h
    simp [AppUI.handleStoreMessage, hm, h]
  · intro h
    simp [AppUI.handleGetMessage, h]
  · intro hv h
    simp [AppUI.handleDeposit, hv, h]
  · intro h
    simp [AppUI.handleWithdraw, h]
  · intro h
    simp [AppUI.updateContractBalance, h]
  · intro a hnet h
    simp [AppUI.handleAccountChange, hnet, h]
  · intro a hacct h
    simp [AppUI.handleNetworkChange, hacct, h]

/-- Witness for C6 (amended): a concrete failing connect request is
rendered as an error status with the connect-specific message. -/
theorem AppUI.error_surfacing_witness :
    (AppUI.handleConnectWallet AppUI.sampleSession AppUI.errEnv).1.status =
      ⟨"error", "Failed to connect wallet: " ++ "user rejected"⟩ :=
  (AppUI.error_surfacing AppUI.sampleSession AppUI.errEnv "user rejected").2.2.2.2.2.2.2.2.2.1
    rfl
